import Mathlib

/-!
Verification of the ArtLink backend (FastAPI `main.py` + pydantic `schemas.py`).

Modelling conventions:
* Python floats are modelled as exact rationals (`ℚ`); the handlers only
  perform sums and products of client-supplied numbers.
* A pydantic model becomes a Lean structure (the validated value) together
  with a `Raw…` structure of `Option` fields (the untyped JSON input) and a
  `validate…` function returning `Option` (pydantic raises `ValidationError`
  on failure, which FastAPI surfaces as a client error before the handler's
  store call runs).
* `Literal[...]` enumerations are strings checked against their closed set.
* `HttpUrl` fields are modelled as plain strings; URL well-formedness is not
  needed by any property proved here.
* `database.py` is imported by `main.py` but is not part of the source tree;
  its `create_document` / `get_documents` operations are modelled from the
  spec (see `Store` below).
-/

namespace ArtLink

/-- Client-error kinds surfaced before any store access. -/
inductive Err where
  | ValidationFailure
  | MissingRequiredParameter
deriving DecidableEq, Repr

/-- Embedding of `schemas.User`: name, email, role ∈ {artist, collector, both} (default
"both"), optional avatar_url/bio/location, is_active default true. -/
structure User where
  name : String
  email : String
  role : String
  avatar_url : Option String
  bio : Option String
  location : Option String
  is_active : Bool
deriving DecidableEq, Repr

/-- Closed value set of `Artwork.availability_status`. -/
def availabilityStatuses : List String :=
  ["available", "reserved", "sold", "commission_only"]

/-- Default of `Artwork.shipping_options`. -/
def defaultShippingOptions : List String :=
  ["artist-arranged", "insured-courier", "local-pickup"]

/-- Embedding of `schemas.Artwork` (validated value). -/
structure Artwork where
  artist_id : String
  title : String
  story : Option String
  media : Option String
  dimensions : Option String
  year : Option Int
  images : List String
  price_range : Option String
  availability_status : String
  tags : List String
  location : Option String
  shipping_options : List String
  likes : Int
  views : Int
deriving DecidableEq, Repr

/-- Raw JSON body for `POST /api/artworks`: every field may be absent. -/
structure RawArtwork where
  artist_id : Option String := none
  title : Option String := none
  story : Option String := none
  media : Option String := none
  dimensions : Option String := none
  year : Option Int := none
  images : Option (List String) := none
  price_range : Option String := none
  availability_status : Option String := none
  tags : Option (List String) := none
  location : Option String := none
  shipping_options : Option (List String) := none
  likes : Option Int := none
  views : Option Int := none
deriving DecidableEq, Repr

/-- Pydantic validation of an `Artwork` body: `artist_id` and `title` are
required (`Field(...)` / no default), `availability_status` defaults to
"available" and must lie in its closed set, remaining fields are filled with
their declared defaults. -/
def validateArtwork (r : RawArtwork) : Option Artwork :=
  match r.artist_id, r.title with
  | some aid, some t =>
    if availabilityStatuses.contains (r.availability_status.getD "available") then
      some
        { artist_id := aid
          title := t
          story := r.story
          media := r.media
          dimensions := r.dimensions
          year := r.year
          images := r.images.getD []
          price_range := r.price_range
          availability_status := r.availability_status.getD "available"
          tags := r.tags.getD []
          location := r.location
          shipping_options := r.shipping_options.getD defaultShippingOptions
          likes := r.likes.getD 0
          views := r.views.getD 0 }
    else none
  | _, _ => none

/-- A body that fails `Artwork` validation: it is missing a required field
(`artist_id` or `title`) or carries an `availability_status` outside the
closed set. -/
def RawArtwork.requiredMissingOrEnumBad (r : RawArtwork) : Bool :=
  r.artist_id.isNone || r.title.isNone ||
    (match r.availability_status with
     | some v => !(availabilityStatuses.contains v)
     | none => false)

/-- Embedding of `schemas.Supply` (validated value): price ≥ 0, stock ≥ 0 with default 0. -/
structure Supply where
  title : String
  description : Option String
  price : ℚ
  category : String
  images : List String
  stock : Int
  brand : Option String
deriving DecidableEq, Repr

/-- Raw JSON body for `POST /api/supplies`. -/
structure RawSupply where
  title : Option String := none
  description : Option String := none
  price : Option ℚ := none
  category : Option String := none
  images : Option (List String) := none
  stock : Option Int := none
  brand : Option String := none
deriving DecidableEq, Repr

/-- Pydantic validation of a `Supply` body: `title`, `price`, `category`
required; `price ≥ 0` (`Field(..., ge=0)`); `stock` defaults to 0 and must be
≥ 0 (`Field(0, ge=0)`). -/
def validateSupply (r : RawSupply) : Option Supply :=
  match r.title, r.price, r.category with
  | some t, some p, some c =>
    if 0 ≤ p ∧ 0 ≤ r.stock.getD 0 then
      some
        { title := t
          description := r.description
          price := p
          category := c
          images := r.images.getD []
          stock := r.stock.getD 0
          brand := r.brand }
    else none
  | _, _, _ => none

/-- A body that fails `Supply` validation by missing a required field. -/
def RawSupply.requiredMissing (r : RawSupply) : Bool :=
  r.title.isNone || r.price.isNone || r.category.isNone

/-- Embedding of `schemas.OrderItem` (validated value): quantity ≥ 1, default 1. -/
structure OrderItem where
  supply_id : String
  title : String
  price : ℚ
  quantity : Int
deriving DecidableEq, Repr

/-- One raw line-item dict from `OrderInput.items : List[dict]`.  The handler
reads only `price` and `quantity` from it; `OrderItem` validation also needs
`supply_id` and `title`. -/
structure RawItem where
  supply_id : Option String := none
  title : Option String := none
  price : Option ℚ := none
  quantity : Option Int := none
deriving DecidableEq, Repr

/-- Pydantic validation of one item dict against `OrderItem`: `supply_id`,
`title`, `price` required; `quantity` defaults to 1 and must be ≥ 1
(`Field(1, ge=1)`). -/
def validateOrderItem (r : RawItem) : Option OrderItem :=
  match r.supply_id, r.title, r.price with
  | some sid, some t, some p =>
    let q := r.quantity.getD 1
    if 1 ≤ q then some { supply_id := sid, title := t, price := p, quantity := q }
    else none
  | _, _, _ => none

/-- One loop step of the total computation in `create_order`:
`float(item.get("price", 0)) * int(item.get("quantity", 1))`. -/
def rawItemAmount (r : RawItem) : ℚ :=
  r.price.getD 0 * (r.quantity.getD 1 : ℚ)

/-- The `create_order` total loop: `total = 0.0; for item in items: total += …`. -/
def computeTotal (items : List RawItem) : ℚ :=
  items.foldl (fun acc r => acc + rawItemAmount r) 0

/-- Embedding of `main.OrderInput`: the request body schema of `POST /api/orders`. -/
structure OrderInput where
  buyer_name : String
  buyer_email : String
  shipping_address : String
  items : List RawItem
deriving DecidableEq, Repr

/-- A raw `POST /api/orders` body as the client may send it, including a
client-supplied `total_amount` field.  `OrderInput` does not declare such a
field, so pydantic silently ignores it (unknown extra fields are dropped). -/
structure RawOrderBody where
  buyer_name : String
  buyer_email : String
  shipping_address : String
  items : List RawItem
  client_total : Option ℚ := none
deriving DecidableEq, Repr

/-- Pydantic parsing of the order body into `OrderInput`: the undeclared
`client_total` extra field is dropped. -/
def parseOrderBody (b : RawOrderBody) : OrderInput :=
  { buyer_name := b.buyer_name
    buyer_email := b.buyer_email
    shipping_address := b.shipping_address
    items := b.items }

/-- Closed value set of `Order.status`. -/
def orderStatuses : List String :=
  ["pending", "paid", "shipped", "delivered", "cancelled"]

/-- Embedding of `schemas.Order` (validated value): total_amount ≥ 0. -/
structure Order where
  buyer_name : String
  buyer_email : String
  shipping_address : String
  items : List OrderItem
  total_amount : ℚ
  status : String
deriving DecidableEq, Repr

/-- Pydantic validation of `items: List[OrderItem]` inside `Order`: every
raw dict must validate; one bad item fails the whole list. -/
def validateItems : List RawItem → Option (List OrderItem)
  | [] => some []
  | r :: rs =>
    match validateOrderItem r, validateItems rs with
    | some i, some is => some (i :: is)
    | _, _ => none

/-- The body of `create_order` up to persistence: first the total is computed
from the RAW item dicts, then `Order(...)` validates the raw items against
`OrderItem` and checks `total_amount ≥ 0` (`Field(..., ge=0)`) and
`status ∈ orderStatuses`; any validation failure aborts before the store
call. -/
def buildOrder (inp : OrderInput) : Option Order :=
  match validateItems inp.items with
  | some its =>
    if 0 ≤ computeTotal inp.items ∧ orderStatuses.contains "pending" then
      some
        { buyer_name := inp.buyer_name
          buyer_email := inp.buyer_email
          shipping_address := inp.shipping_address
          items := its
          total_amount := computeTotal inp.items
          status := "pending" }
    else none
  | none => none

/-- Embedding of `schemas.Post` (validated value). -/
structure Post where
  author_id : String
  text : String
  images : List String
  tags : List String
  likes : Int
  comments_count : Int
deriving DecidableEq, Repr

/-- Raw JSON body for `POST /api/posts`. -/
structure RawPost where
  author_id : Option String := none
  text : Option String := none
  images : Option (List String) := none
  tags : Option (List String) := none
  likes : Option Int := none
  comments_count : Option Int := none
deriving DecidableEq, Repr

/-- Pydantic validation of a `Post` body: `author_id` and `text` required,
the rest defaulted. -/
def validatePost (r : RawPost) : Option Post :=
  match r.author_id, r.text with
  | some aid, some t =>
    some
      { author_id := aid
        text := t
        images := r.images.getD []
        tags := r.tags.getD []
        likes := r.likes.getD 0
        comments_count := r.comments_count.getD 0 }
  | _, _ => none

/-- A body that fails `Post` validation by missing a required field. -/
def RawPost.requiredMissing (r : RawPost) : Bool :=
  r.author_id.isNone || r.text.isNone

/-- Embedding of `schemas.Comment` (validated value); `created_at` kept as an opaque
optional timestamp string. -/
structure Comment where
  post_id : String
  author_id : String
  text : String
  likes : Int
  created_at : Option String
deriving DecidableEq, Repr

/-- Raw JSON body for `POST /api/comments`. -/
structure RawComment where
  post_id : Option String := none
  author_id : Option String := none
  text : Option String := none
  likes : Option Int := none
  created_at : Option String := none
deriving DecidableEq, Repr

/-- Pydantic validation of a `Comment` body: `post_id`, `author_id`, `text`
required, `likes` defaults to 0, `created_at` optional. -/
def validateComment (r : RawComment) : Option Comment :=
  match r.post_id, r.author_id, r.text with
  | some pid, some aid, some t =>
    some
      { post_id := pid
        author_id := aid
        text := t
        likes := r.likes.getD 0
        created_at := r.created_at }
  | _, _, _ => none

/-- A body that fails `Comment` validation by missing a required field. -/
def RawComment.requiredMissing (r : RawComment) : Bool :=
  r.post_id.isNone || r.author_id.isNone || r.text.isNone

/-- Modelled from the spec: `database.py` (the `db` handle with
`create_document` / `get_documents`) is imported by `main.py` but missing from
the source tree.  Per the spec §4.2 the store keeps one collection per entity
type (collection name = lowercased type name) and delegates identifier
generation to the store; we model it as one list per collection plus a
counter that yields fresh identifiers. -/
structure Store where
  users : List User := []
  artworks : List Artwork := []
  supplies : List Supply := []
  orders : List Order := []
  posts : List Post := []
  comments : List Comment := []
  nextId : Nat := 0
deriving DecidableEq, Repr

/-- Modelled from the spec: `create_document` "assigns a new unique
identifier, writes the record, returns the identifier". -/
def Store.freshId (s : Store) : String := toString s.nextId

/-- Modelled from the spec: `get_documents(…, filter, limit)` "returns up to
`limit` records matching `filter`"; `none` means no limit is applied. -/
def applyLimit {α : Type} (limit : Option Nat) (records : List α) : List α :=
  match limit with
  | some n => records.take n
  | none => records

/-- Handler for `POST /api/users`: FastAPI validates the body into `User` before the
handler runs; the handler writes the document and returns the new id. -/
def createUser (s : Store) (u : User) : Except Err (String × Store) :=
  .ok (s.freshId, { s with users := s.users ++ [u], nextId := s.nextId + 1 })

/-- Handler for `GET /api/users`: `get_documents("user")` — no filter, no limit. -/
def listUsers (s : Store) : List User :=
  applyLimit none s.users

/-- Handler for `POST /api/artworks`: pydantic validation of the body, then
`create_document("artwork", artwork)`.  A validation failure is a client
error raised before any store access, so the store is untouched. -/
def createArtwork (s : Store) (r : RawArtwork) : Except Err (String × Store) :=
  match validateArtwork r with
  | none => .error .ValidationFailure
  | some a => .ok (s.freshId, { s with artworks := s.artworks ++ [a], nextId := s.nextId + 1 })

/-- Handler for `GET /api/artworks?tag=`: `filt = {"tags": {"$in": [tag]}} if tag else {}`
then `get_documents("artwork", filt, limit=50)`.  Python's truthiness makes
`None` and `""` both select the empty filter; `$in` on an array field is
set membership (spec §4.2). -/
def listArtworks (s : Store) (tag : Option String) : List Artwork :=
  applyLimit (some 50)
    (match tag with
     | some t => if t ≠ "" then s.artworks.filter (fun a => a.tags.contains t) else s.artworks
     | none => s.artworks)

/-- Handler for `POST /api/supplies`. -/
def createSupply (s : Store) (r : RawSupply) : Except Err (String × Store) :=
  match validateSupply r with
  | none => .error .ValidationFailure
  | some v => .ok (s.freshId, { s with supplies := s.supplies ++ [v], nextId := s.nextId + 1 })

/-- Handler for `GET /api/supplies?category=`: `filt = {"category": category} if category
else {}` then `get_documents("supply", filt, limit=100)` — equality filter. -/
def listSupplies (s : Store) (category : Option String) : List Supply :=
  applyLimit (some 100)
    (match category with
     | some c => if c ≠ "" then s.supplies.filter (fun v => v.category == c) else s.supplies
     | none => s.supplies)

/-- Handler for `POST /api/orders`: FastAPI parses the body into `OrderInput`, the handler
computes the total, builds the `Order` document (pydantic validation) and
persists it; a validation failure aborts before the store call. -/
def createOrder (s : Store) (inp : OrderInput) : Except Err (String × Store) :=
  match buildOrder inp with
  | none => .error .ValidationFailure
  | some o => .ok (s.freshId, { s with orders := s.orders ++ [o], nextId := s.nextId + 1 })

/-- Handler for `GET /api/orders`: `get_documents("order", {}, limit=50)`. -/
def listOrders (s : Store) : List Order :=
  applyLimit (some 50) s.orders

/-- Handler for `POST /api/posts`. -/
def createPost (s : Store) (r : RawPost) : Except Err (String × Store) :=
  match validatePost r with
  | none => .error .ValidationFailure
  | some p => .ok (s.freshId, { s with posts := s.posts ++ [p], nextId := s.nextId + 1 })

/-- Handler for `GET /api/posts?tag=`: same tag-membership filter as artworks, limit 50. -/
def listPosts (s : Store) (tag : Option String) : List Post :=
  applyLimit (some 50)
    (match tag with
     | some t => if t ≠ "" then s.posts.filter (fun p => p.tags.contains t) else s.posts
     | none => s.posts)

/-- Handler for `POST /api/comments`. -/
def createComment (s : Store) (r : RawComment) : Except Err (String × Store) :=
  match validateComment r with
  | none => .error .ValidationFailure
  | some c => .ok (s.freshId, { s with comments := s.comments ++ [c], nextId := s.nextId + 1 })

/-- Handler for `GET /api/comments?post_id=`: `post_id: str` has no default, so FastAPI
rejects a request without it as a client error before the handler (and hence
the store) is reached; otherwise
`get_documents("comment", {"post_id": post_id}, limit=100)`. -/
def listComments (s : Store) (post_id : Option String) : Except Err (List Comment) :=
  match post_id with
  | none => .error .MissingRequiredParameter
  | some pid => .ok (applyLimit (some 100) (s.comments.filter (fun c => c.post_id == pid)))

/-! ### Concrete inputs used by the witnesses -/

def demoOrderBody : RawOrderBody :=
  { buyer_name := "Ada"
    buyer_email := "ada@example.com"
    shipping_address := "1 Way"
    items :=
      [{ supply_id := some "s1", title := some "Brush", price := some 10, quantity := some 2 },
       { supply_id := some "s2", title := some "Canvas", price := some 5, quantity := some 1 }]
    client_total := some 999 }

def demoOrder : Order :=
  { buyer_name := "Ada"
    buyer_email := "ada@example.com"
    shipping_address := "1 Way"
    items := [⟨"s1", "Brush", 10, 2⟩, ⟨"s2", "Canvas", 5, 1⟩]
    total_amount := 25
    status := "pending" }

def demoStoreAfter : Store := { orders := [demoOrder], nextId := 1 }

def badItemOrder : OrderInput :=
  { buyer_name := "Bo"
    buyer_email := "bo@example.com"
    shipping_address := "2 St"
    items := [{ supply_id := some "s1", title := some "Brush", price := some 10, quantity := some 0 }] }

def negTotalOrder : OrderInput :=
  { buyer_name := "Cy"
    buyer_email := "cy@example.com"
    shipping_address := "3 Rd"
    items := [{ supply_id := some "s9", title := some "Refund", price := some (-5), quantity := some 1 }] }

def abstractArt : Artwork :=
  { artist_id := "u1"
    title := "Blue Field"
    story := none
    media := none
    dimensions := none
    year := none
    images := []
    price_range := none
    availability_status := "available"
    tags := ["abstract"]
    location := none
    shipping_options := defaultShippingOptions
    likes := 0
    views := 0 }

def portraitArt : Artwork :=
  { abstractArt with title := "Old Man", tags := ["portrait"] }

def tagDemoStore : Store := { artworks := [abstractArt, portraitArt], nextId := 2 }

def negPriceSupply : RawSupply :=
  { title := some "Ink", price := some (-1), category := some "Paints" }

def okSupply : RawSupply :=
  { title := some "Ink", price := some 3, category := some "Paints", stock := some 2 }

/-! ### Helper lemmas -/

/-- One invalid raw item makes the whole item-list validation fail. -/
theorem validateItems_eq_none_of_mem (r : RawItem) :
    ∀ l : List RawItem, r ∈ l → validateOrderItem r = none →
      validateItems l = none := by
  intro l
  induction l with
  | nil => intro h; cases h
  | cons a as ih =>
    intro hmem hnone
    rcases List.mem_cons.mp hmem with h | h
    · subst h
      unfold validateItems
      rw [hnone]
    · have hrec := ih h hnone
      unfold validateItems
      rw [hrec]
      cases validateOrderItem a <;> rfl

/-- Shape of a successfully built order document. -/
theorem buildOrder_spec (inp : OrderInput) (o : Order)
    (h : buildOrder inp = some o) :
    o.total_amount = computeTotal inp.items ∧ o.status = "pending" ∧
    validateItems inp.items = some o.items := by
  unfold buildOrder at h
  split at h
  · next its hv =>
    split at h
    · cases h
      exact ⟨rfl, rfl, hv⟩
    · exact absurd h (by simp)
  · exact absurd h (by simp)

/-! ### Claims -/

/-- C1: the order document built for persistence has `total_amount` equal to
the raw-item sum of price (default 0) × quantity (default 1); the
client-supplied total field is dropped during parsing, and the stored status
is "pending". -/
theorem createOrder_total_amount_computed
    (s : Store) (b : RawOrderBody) (t : Option ℚ) (i : String) (s' : Store) :
    parseOrderBody { b with client_total := t } = parseOrderBody b ∧
    (createOrder s (parseOrderBody b) = .ok (i, s') →
      ∃ o : Order, s'.orders = s.orders ++ [o] ∧
        o.total_amount = computeTotal b.items ∧ o.status = "pending") := by
  refine ⟨rfl, fun h => ?_⟩
  unfold createOrder at h
  cases hb : buildOrder (parseOrderBody b) with
  | none => rw [hb] at h; exact absurd h (by simp)
  | some o =>
    rw [hb] at h
    simp only [Except.ok.injEq, Prod.mk.injEq] at h
    obtain ⟨-, hs'⟩ := h
    subst hs'
    obtain ⟨hts, hst, -⟩ := buildOrder_spec _ _ hb
    exact ⟨o, rfl, hts, hst⟩

/-- Evaluation of the demo order body through `buildOrder`. -/
theorem demoOrderBody_builds :
    buildOrder (parseOrderBody demoOrderBody) = some demoOrder := by
  have hvi : validateItems (parseOrderBody demoOrderBody).items = some demoOrder.items := rfl
  have htot : computeTotal (parseOrderBody demoOrderBody).items = 25 := by
    norm_num [computeTotal, rawItemAmount, demoOrderBody, parseOrderBody]
  unfold buildOrder
  rw [hvi]
  dsimp only
  rw [htot, if_pos ⟨by norm_num, by decide⟩]
  rfl

theorem createOrder_total_amount_computed_witness :
    parseOrderBody { demoOrderBody with client_total := some 999 } = parseOrderBody demoOrderBody ∧
    ∃ o : Order, demoStoreAfter.orders = ({} : Store).orders ++ [o] ∧
      o.total_amount = computeTotal demoOrderBody.items ∧ o.status = "pending" :=
  have h := createOrder_total_amount_computed {} demoOrderBody (some 999) "0" demoStoreAfter
  ⟨h.1, h.2 (by unfold createOrder; rw [demoOrderBody_builds]; rfl)⟩


/-- C2: raw items are validated against the stricter `OrderItem` schema after
the total is computed from the raw dicts and before persistence: an order
containing an invalid item (e.g. quantity 0) is rejected and never stored,
and any successfully built order carries the raw-computed total together with
the `OrderItem`-validated items. -/
theorem createOrder_items_validated_after_total (s : Store) (inp : OrderInput) :
    ((∃ r ∈ inp.items, validateOrderItem r = none) →
      createOrder s inp = .error .ValidationFailure) ∧
    (∀ o : Order, buildOrder inp = some o →
      o.total_amount = computeTotal inp.items ∧
      validateItems inp.items = some o.items) := by
  constructor
  · rintro ⟨r, hr, hnone⟩
    have hb : buildOrder inp = none := by
      unfold buildOrder
      rw [validateItems_eq_none_of_mem r inp.items hr hnone]
    unfold createOrder
    rw [hb]
  · intro o ho
    obtain ⟨hts, -, hits⟩ := buildOrder_spec _ _ ho
    exact ⟨hts, hits⟩

theorem createOrder_items_validated_after_total_witness :
    createOrder {} badItemOrder = .error .ValidationFailure ∧
    (demoOrder.total_amount = computeTotal (parseOrderBody demoOrderBody).items ∧
      validateItems (parseOrderBody demoOrderBody).items = some demoOrder.items) :=
  ⟨(createOrder_items_validated_after_total {} badItemOrder).1 (by decide),
   (createOrder_items_validated_after_total {} (parseOrderBody demoOrderBody)).2
     demoOrder demoOrderBody_builds⟩

/-- C8: an item dict with a price but no quantity key contributes
`price × 1` to the computed total. -/
theorem missing_quantity_defaults_one (r : RawItem) (p : ℚ)
    (hq : r.quantity = none) (hp : r.price = some p) :
    rawItemAmount r = p ∧ computeTotal [r] = p := by
  have h1 : rawItemAmount r = p := by
    simp [rawItemAmount, hq, hp]
  exact ⟨h1, by simp [computeTotal, h1]⟩

theorem missing_quantity_defaults_one_witness :
    rawItemAmount { price := some 3 } = 3 ∧
    computeTotal [{ price := some 3 }] = 3 :=
  missing_quantity_defaults_one { price := some 3 } 3 rfl rfl

/-- C10: `Order.total_amount` carries `ge=0`, so an input whose raw-computed
total is negative fails `Order` construction and nothing is persisted. -/
theorem createOrder_negative_total_rejected (s : Store) (inp : OrderInput)
    (h : computeTotal inp.items < 0) :
    buildOrder inp = none ∧ createOrder s inp = .error .ValidationFailure := by
  have hb : buildOrder inp = none := by
    unfold buildOrder
    split
    · rw [if_neg (fun hc => absurd hc.1 (not_le.mpr h))]
    · rfl
  exact ⟨hb, by unfold createOrder; rw [hb]⟩

theorem createOrder_negative_total_rejected_witness :
    buildOrder negTotalOrder = none ∧
    createOrder {} negTotalOrder = .error .ValidationFailure :=
  createOrder_negative_total_rejected {} negTotalOrder
    (by norm_num [computeTotal, rawItemAmount, negTotalOrder])

/-- Missing required field or bad enum value makes `Artwork` validation fail. -/
theorem validateArtwork_eq_none (a : RawArtwork)
    (h : a.requiredMissingOrEnumBad = true) : validateArtwork a = none := by
  obtain ⟨aid, t, _, _, _, _, _, _, st, _, _, _, _, _⟩ := a
  cases aid <;> cases t <;> cases st <;>
    simp_all [RawArtwork.requiredMissingOrEnumBad, validateArtwork]

/-- Missing required field makes `Supply` validation fail. -/
theorem validateSupply_eq_none_of_missing (r : RawSupply)
    (h : r.requiredMissing = true) : validateSupply r = none := by
  obtain ⟨t, _, p, c, _, _, _⟩ := r
  cases t <;> cases p <;> cases c <;>
    simp_all [RawSupply.requiredMissing, validateSupply]

/-- Missing required field makes `Post` validation fail. -/
theorem validatePost_eq_none_of_missing (r : RawPost)
    (h : r.requiredMissing = true) : validatePost r = none := by
  obtain ⟨aid, t, _, _, _, _⟩ := r
  cases aid <;> cases t <;>
    simp_all [RawPost.requiredMissing, validatePost]

/-- Missing required field makes `Comment` validation fail. -/
theorem validateComment_eq_none_of_missing (r : RawComment)
    (h : r.requiredMissing = true) : validateComment r = none := by
  obtain ⟨pid, aid, t, _, _⟩ := r
  cases pid <;> cases aid <;> cases t <;>
    simp_all [RawComment.requiredMissing, validateComment]

/-- A limited read returns at most the limit. -/
theorem applyLimit_length_le {α : Type} (n : Nat) (l : List α) :
    (applyLimit (some n) l).length ≤ n := by
  simp [applyLimit]

/-- C3: an Artwork/Supply/Post/Comment body missing a required field, or (for
Artwork) carrying an enum value outside its closed set, is rejected with a
validation failure before the store is touched: `create` returns the client
error and produces no new store state. -/
theorem create_invalid_input_rejected (s : Store) (a : RawArtwork)
    (su : RawSupply) (p : RawPost) (c : RawComment) :
    (a.requiredMissingOrEnumBad = true →
      createArtwork s a = .error .ValidationFailure) ∧
    (su.requiredMissing = true →
      createSupply s su = .error .ValidationFailure) ∧
    (p.requiredMissing = true →
      createPost s p = .error .ValidationFailure) ∧
    (c.requiredMissing = true →
      createComment s c = .error .ValidationFailure) := by
  refine ⟨fun h => ?_, fun h => ?_, fun h => ?_, fun h => ?_⟩
  · unfold createArtwork; rw [validateArtwork_eq_none a h]
  · unfold createSupply; rw [validateSupply_eq_none_of_missing su h]
  · unfold createPost; rw [validatePost_eq_none_of_missing p h]
  · unfold createComment; rw [validateComment_eq_none_of_missing c h]

theorem create_invalid_input_rejected_witness :
    createArtwork {} {} = .error .ValidationFailure ∧
    createSupply {} {} = .error .ValidationFailure ∧
    createPost {} {} = .error .ValidationFailure ∧
    createComment {} {} = .error .ValidationFailure :=
  have h := create_invalid_input_rejected {} {} {} {} {}
  ⟨h.1 rfl, h.2.1 rfl, h.2.2.1 rfl, h.2.2.2 rfl⟩

/-- C4: every list endpoint truncates to its fixed per-entity limit —
Artwork 50, Supply 100, Order 50, Post 50, Comment 100 — while the User list
applies no limit and returns the whole collection. -/
theorem list_respects_limits (s : Store) (tag ptag cat : Option String)
    (pid : String) :
    (listArtworks s tag).length ≤ 50 ∧
    (listSupplies s cat).length ≤ 100 ∧
    (listOrders s).length ≤ 50 ∧
    (listPosts s ptag).length ≤ 50 ∧
    (∃ l, listComments s (some pid) = .ok l ∧ l.length ≤ 100) ∧
    listUsers s = s.users :=
  ⟨applyLimit_length_le _ _, applyLimit_length_le _ _, applyLimit_length_le _ _,
   applyLimit_length_le _ _, ⟨_, rfl, applyLimit_length_le _ _⟩, rfl⟩

/-- C5: listing Artworks or Posts with a non-empty tag returns exactly the
stored records whose tags list contains that tag (truncated to the limit). -/
theorem list_tag_filter_membership (s : Store) (t : String) (h : t ≠ "") :
    listArtworks s (some t) =
      (s.artworks.filter (fun a => a.tags.contains t)).take 50 ∧
    listPosts s (some t) =
      (s.posts.filter (fun p => p.tags.contains t)).take 50 := by
  constructor
  · unfold listArtworks
    dsimp only
    rw [if_pos h]
    rfl
  · unfold listPosts
    dsimp only
    rw [if_pos h]
    rfl

theorem list_tag_filter_membership_witness :
    listArtworks tagDemoStore (some "abstract") = [abstractArt] := by
  rw [(list_tag_filter_membership tagDemoStore "abstract" (by decide)).1]
  rfl

/-- C6: listing Comments without the required `post_id` query parameter is a
client error raised before the store is reached; with `post_id` supplied only
the comments with that `post_id` are returned, at most 100 of them. -/
theorem listComments_requires_post_id (s : Store) :
    listComments s none = .error .MissingRequiredParameter ∧
    ∀ pid : String, listComments s (some pid) =
      .ok ((s.comments.filter (fun c => c.post_id == pid)).take 100) :=
  ⟨rfl, fun _ => rfl⟩

/-- C7: a Supply body with a negative price or a negative stock fails
validation and is never persisted; with price ≥ 0 and stock ≥ 0 (default 0)
— and the remaining required fields present — validation succeeds. -/
theorem supply_nonneg_price_stock (s : Store) (r : RawSupply) :
    (((∃ p, r.price = some p ∧ p < 0) ∨ (∃ n, r.stock = some n ∧ n < 0)) →
      validateSupply r = none ∧ createSupply s r = .error .ValidationFailure) ∧
    (∀ t c p, r.title = some t → r.category = some c → r.price = some p →
      0 ≤ p → 0 ≤ r.stock.getD 0 → (validateSupply r).isSome = true) := by
  constructor
  · intro hneg
    have hv : validateSupply r = none := by
      unfold validateSupply
      cases ht : r.title with
      | none => rfl
      | some t =>
        cases hp : r.price with
        | none => rfl
        | some p =>
          cases hc : r.category with
          | none => rfl
          | some c =>
            dsimp only
            rw [if_neg]
            rintro ⟨h0, h1⟩
            rcases hneg with ⟨q, hq, hqneg⟩ | ⟨n, hn, hnneg⟩
            · rw [hp] at hq
              cases hq
              exact absurd h0 (not_le.mpr hqneg)
            · rw [hn, Option.getD_some] at h1
              exact absurd h1 (not_le.mpr hnneg)
    exact ⟨hv, by unfold createSupply; rw [hv]⟩
  · intro t c p ht hc hp hpge hstge
    unfold validateSupply
    rw [ht, hp, hc]
    dsimp only
    rw [if_pos ⟨hpge, hstge⟩]
    rfl

theorem supply_nonneg_price_stock_witness :
    (validateSupply negPriceSupply = none ∧
      createSupply {} negPriceSupply = .error .ValidationFailure) ∧
    (validateSupply okSupply).isSome = true :=
  ⟨(supply_nonneg_price_stock {} negPriceSupply).1 (Or.inl ⟨-1, rfl, by norm_num⟩),
   (supply_nonneg_price_stock {} okSupply).2 "Ink" "Paints" 3 rfl rfl rfl
     (by norm_num) (by decide)⟩

/-- C9: an empty-string value for an optional filter parameter is treated
exactly like an absent parameter (Python truthiness of `if tag` / `if
category`): no filter is applied and up to the limit of all records is
returned. -/
theorem empty_filter_param_ignored (s : Store) :
    listArtworks s (some "") = listArtworks s none ∧
    listArtworks s none = s.artworks.take 50 ∧
    listPosts s (some "") = listPosts s none ∧
    listPosts s none = s.posts.take 50 ∧
    listSupplies s (some "") = listSupplies s none ∧
    listSupplies s none = s.supplies.take 100 := by
  refine ⟨?_, rfl, ?_, rfl, ?_, rfl⟩ <;>
    simp [listArtworks, listPosts, listSupplies]

end ArtLink
